import Mathlib

/-!
Shallow embedding of `src/fish_key_reader.cpp` (fish-shell's key-reader
diagnostic tool): the byte-stream analysis engine consisting of the
Exit-Phrase Detector (`should_exit`), the Sequence Matcher (`key_name`),
the Byte Classifier (`output_info_about_char`), the Timing Tracker
(`output_elapsed_time`), the Session Loop (`process_input`) and the
signal handler (`signal_handler`).

Bytes are modelled as `Nat` (values 0..255); input units delivered by
`input_common_readch` may exceed 255 (wide characters).  Timestamps are
modelled in exact integer microseconds: the C code keeps `double` seconds
and computes `long long delta_tstamp_us = 1000000 * (now - prev_tstamp)`;
here a clock reading is an `Int` number of microseconds and the delta is
the difference, which is the same quantity.  The external symbolic name
table (`input_terminfo_get_name`) is an abstract lookup function
`List Nat → Option String`.  Output lines become explicit `Report` values.
-/

namespace FishKeyReader

/-- `static const char *ctrl_symbolic_names[]` from fish_key_reader.cpp:
a 32-entry array, `NULL` except at indices 7..13 and 27. -/
def ctrl_symbolic_names : List (Option String) :=
  [none, none, none, none, none, none, none, some "\\a",
   some "\\b", some "\\t", some "\\n", some "\\v", some "\\f", some "\\r", none, none,
   none, none, none, none, none, none, none, none,
   none, none, none, some "\\e", none, none, none, none]

/-- The `static unsigned char recent_chars[4]` window of `should_exit`,
kept as four named bytes exactly as the C shift register updates them. -/
structure ExitRing where
  c0 : Nat
  c1 : Nat
  c2 : Nat
  c3 : Nat
deriving DecidableEq, Repr

/-- The zero-initialised exit window (`= {0}`). -/
def exitRingInit : ExitRing := ⟨0, 0, 0, 0⟩

/-- The bytes of the literal `"exit"`. -/
def exitPhrase : ExitRing := ⟨101, 120, 105, 116⟩

/-- The bytes of the literal `"quit"`. -/
def quitPhrase : ExitRing := ⟨113, 117, 105, 116⟩

/-- `should_exit` from fish_key_reader.cpp: shift the 4-byte window left,
append `c`, and compare the window with `memcmp` against `"exit"` and
`"quit"`.  Returns the updated window together with the boolean result. -/
def should_exit (w : ExitRing) (c : Nat) : ExitRing × Bool :=
  let w' : ExitRing := ⟨w.c1, w.c2, w.c3, c⟩
  (w', decide (w' = exitPhrase) || decide (w' = quitPhrase))

/-- Push one byte into the 8-byte `recent_chars` window of `key_name`:
`recent_chars[i] = recent_chars[i+1]` for i = 0..6, `recent_chars[7] = c`.
On an 8-element list this is dropping the head and appending `c`. -/
def push_window (w : List Nat) (c : Nat) : List Nat :=
  w.drop 1 ++ [c]

/-- The zero-initialised (`= {0}`) 8-byte window of `key_name`. -/
def keyWindowInit : List Nat := List.replicate 8 0

/-- Push a whole sequence of bytes into the 8-byte window, oldest first. -/
def push_window_all (w : List Nat) (bs : List Nat) : List Nat :=
  bs.foldl push_window w

/-- The loop `for (int idx = 7; idx >= 0; idx--)` of `key_name`: query the
table on the window suffix starting at `idx` (`recent_chars + idx`,
length `8 - idx`) and return the first hit. -/
def key_name_search (table : List Nat → Option String) (w : List Nat) :
    List Nat → Option String
  | [] => none
  | idx :: rest =>
    match table (w.drop idx) with
    | some name => some name
    | none => key_name_search table w rest

/-- The descending index order of the C loop: idx = 7 (suffix length 1)
down to idx = 0 (suffix length 8). -/
def key_name_idxs : List Nat := [7, 6, 5, 4, 3, 2, 1, 0]

/-- `key_name` from fish_key_reader.cpp: push `c` into the 8-byte window,
then scan suffixes from length 1 (idx 7) up to length 8 (idx 0), returning
the name of the first suffix the table matches, else `NULL` (`none`).
Returns the updated window together with the lookup result. -/
def key_name (table : List Nat → Option String) (w : List Nat) (c : Nat) :
    List Nat × Option String :=
  let w' := push_window w c
  (w', key_name_search table w' key_name_idxs)

/-- Left-pad a string to width `width` with character `c` (no-op when the
string is already at least that wide), as C printf field padding does. -/
def padLeft (s : String) (width : Nat) (c : Char) : String :=
  String.mk (List.replicate (width - s.length) c) ++ s

/-- `printf "%3lld"`: decimal rendering right-justified in a 3-column
field, space-padded. -/
def fmt_sp3 (n : Int) : String := padLeft (toString n) 3 ' '

/-- `printf "%03lld"`: decimal rendering zero-padded to 3 columns; for a
negative value C emits the sign before the zero padding. -/
def fmt_z3 (n : Int) : String :=
  if n < 0 then "-" ++ padLeft (toString (-n)) 2 '0'
  else padLeft (toString n) 3 '0'

/-- The separator decision of `output_elapsed_time`:
`if (delta_tstamp_us >= 200000 && first_char_seen) putchar('\n')`. -/
def elapsed_separator (delta_tstamp_us : Int) (first_char_seen : Bool) : Bool :=
  decide (delta_tstamp_us ≥ 200000) && first_char_seen

/-- The elapsed-time field of `output_elapsed_time`: 14 blanks when
`delta_tstamp_us >= 1000000`, otherwise
`"(%3lld.%03lld ms)  "` of `delta / 1000` and `delta % 1000`
(C `/` and `%` truncate toward zero: `Int.quot` / `Int.rem`). -/
def elapsed_field (delta_tstamp_us : Int) : String :=
  if delta_tstamp_us ≥ 1000000 then "              "
  else "(" ++ fmt_sp3 (Int.tdiv delta_tstamp_us 1000) ++ "."
           ++ fmt_z3 (Int.tmod delta_tstamp_us 1000) ++ " ms)  "

/-- The character-description field printed by `output_info_about_char`
after `"char: "`, for a byte `c` (0..255): the five-way precedence
control / space / del / non-ASCII / printable of the C code. -/
def char_field (c : Nat) : String :=
  if c < 32 then
    -- printf("\\c%c", c + 64), then the optional alias from the table.
    let base := String.mk ['\\', 'c', Char.ofNat (c + 64)]
    match ctrl_symbolic_names.getD c none with
    | some name => base ++ "   (or " ++ name ++ ")"
    | none => base
  else if c = 32 then "\\040  (aka \"space\")"
  else if c = 0x7F then "\\177  (aka \"del\")"
  else if c ≥ 128 then
    -- printf("\\%03o  (aka non-ASCII)", c): three octal digits for c ≥ 128.
    String.mk ['\\', Char.ofNat (48 + c / 64), Char.ofNat (48 + c / 8 % 8),
               Char.ofNat (48 + c % 8)] ++ "  (aka non-ASCII)"
  else String.mk [Char.ofNat c]

/-- Signal numbers as on the target platform (Linux). -/
def SIGINT : Nat := 2
/-- SIGABRT signal number. -/
def SIGABRT : Nat := 6
/-- SIGSEGV signal number. -/
def SIGSEGV : Nat := 11
/-- SIGTERM signal number. -/
def SIGTERM : Nat := 15

/-- `signal_handler` from fish_key_reader.cpp: always prints a receipt
notice, and clears `keep_running` only for SIGINT / SIGTERM / SIGABRT /
SIGSEGV.  Result: (notice printed, new value of `keep_running`). -/
def signal_handler (signo : Nat) (keep_running : Bool) : Bool × Bool :=
  (true,
   if signo = SIGINT ∨ signo = SIGTERM ∨ signo = SIGABRT ∨ signo = SIGSEGV then
     false
   else keep_running)

/-- One unit delivered by `input_common_readch`: end-of-stream (`WEOF`) or
a wide-character value; a delivered value carries the clock reading
(`timef()`, in microseconds) the loop would observe while processing it. -/
inductive InputUnit
  | eof
  | unit (v : Nat) (now : Int)
deriving DecidableEq, Repr

/-- The per-iteration outputs of `process_input`. -/
inductive Report
  /-- One per-byte report: separator blank line (if any), elapsed-time
  field, `dec/oct/hex/char` description, optional matched key name. -/
  | byteReport (separator : Bool) (elapsed : String) (charInfo : String)
      (name : Option String)
  /-- `"\nExiting at your request.\n"` -/
  | exitNotice
  /-- `"\nUnexpected wide character from input_common_readch(): ..."` -/
  | unexpectedWide (v : Nat)
deriving DecidableEq, Repr

/-- Whether a report is a per-byte report. -/
def Report.isByteReport : Report → Bool
  | .byteReport _ _ _ _ => true
  | _ => false

/-- How a run of `process_input` ended. -/
inductive EndStatus
  /-- `wc == WEOF`: clean return, no error reported. -/
  | eofEnd
  /-- `wc > 255`: unexpected-wide-character error, return. -/
  | wideCharError (v : Nat)
  /-- `should_exit` fired: break after the exit notice. -/
  | exitRequested
  /-- `keep_running` found false at the top of the loop. -/
  | flagCleared
  /-- The modelled input list ran out with the loop still live (the real
  collaborator blocks instead; theorems only use lists that terminate). -/
  | starved
deriving DecidableEq, Repr

/-- The mutable state of one `process_input` session. -/
structure SessionState where
  first_char_seen : Bool
  prev_tstamp : Int
  seq_window : List Nat
  exit_window : ExitRing
  keep_running : Bool
deriving DecidableEq, Repr

/-- The state at the top of `process_input`: `first_char_seen = false`,
`prev_tstamp = 0.0`, both static windows zero-initialised,
`keep_running = true`. -/
def session_init : SessionState :=
  { first_char_seen := false
    prev_tstamp := 0
    seq_window := keyWindowInit
    exit_window := exitRingInit
    keep_running := true }

/-- The `while (keep_running)` loop of `process_input`, driven by a list
of input units: check the flag, read one unit, dispatch on WEOF / wide /
byte, and for a byte run Timing Tracker, Byte Classifier, Sequence
Matcher and Exit-Phrase Detector in the order of the C code. -/
def process_input_loop (table : List Nat → Option String) :
    SessionState → List InputUnit → List Report × EndStatus
  | s, [] => if s.keep_running then ([], .starved) else ([], .flagCleared)
  | s, u :: rest =>
    if s.keep_running then
      match u with
      | .eof => ([], .eofEnd)
      | .unit v now =>
        if v > 255 then ([.unexpectedWide v], .wideCharError v)
        else
          let delta := now - s.prev_tstamp
          let sep := elapsed_separator delta s.first_char_seen
          let field := elapsed_field delta
          let kn := key_name table s.seq_window v
          let se := should_exit s.exit_window v
          let rep := Report.byteReport sep field (char_field v) kn.2
          if se.2 then ([rep, .exitNotice], .exitRequested)
          else
            let s' : SessionState :=
              { first_char_seen := true
                prev_tstamp := now
                seq_window := kn.1
                exit_window := se.1
                keep_running := s.keep_running }
            let r := process_input_loop table s' rest
            (rep :: r.1, r.2)
    else ([], .flagCleared)

/-- `process_input` from fish_key_reader.cpp, from its initial state. -/
def process_input (table : List Nat → Option String) (input : List InputUnit) :
    List Report × EndStatus :=
  process_input_loop table session_init input

/-- Feed a list of bytes to the Exit-Phrase Detector one at a time and
collect the boolean result of each push. -/
def should_exit_run (w : ExitRing) : List Nat → List Bool
  | [] => []
  | c :: cs =>
    let r := should_exit w c
    r.2 :: should_exit_run r.1 cs

/-- Test name table containing both the 1-byte entry `{0x4F}` named "O"
and the 2-byte entry `{0x1B, 0x4F}` named "F1". -/
def table_O_F1 : List Nat → Option String := fun s =>
  if s = [0x4F] then some "O"
  else if s = [0x1B, 0x4F] then some "F1"
  else none

/-- Test name table containing only the 2-byte entry `{0x1B, 0x4F}`
named "F1". -/
def table_F1 : List Nat → Option String := fun s =>
  if s = [0x1B, 0x4F] then some "F1" else none

/-- Test name table containing only the 2-byte entry `{0x00, 0x41}`
(a NUL byte followed by `A`) named "X". -/
def table_nul : List Nat → Option String := fun s =>
  if s = [0, 0x41] then some "X" else none

/-- The 9 bytes of `"hello"` followed by `"exit"`, delivered 100 µs apart
starting one second after the epoch. -/
def hello_exit_input : List InputUnit :=
  [InputUnit.unit 104 1000000, InputUnit.unit 101 1000100,
   InputUnit.unit 108 1000200, InputUnit.unit 108 1000300,
   InputUnit.unit 111 1000400, InputUnit.unit 101 1000500,
   InputUnit.unit 120 1000600, InputUnit.unit 105 1000700,
   InputUnit.unit 116 1000800]

/-! Helper lemmas shared by the claim theorems. -/

/-- Scanning the suffix indices yields no name exactly when the table
rejects the suffix at every scanned index. -/
lemma key_name_search_none_iff (table : List Nat → Option String) (w : List Nat) :
    ∀ idxs : List Nat,
      (key_name_search table w idxs = none ↔ ∀ j ∈ idxs, table (w.drop j) = none)
  | [] => by simp [key_name_search]
  | i :: is => by
    cases h : table (w.drop i) with
    | some n => simp [key_name_search, h]
    | none => simp [key_name_search, h, key_name_search_none_iff table w is]

/-- Pushing a byte list through the shift-register window keeps the last
`w.length` elements of `w ++ bs`. -/
lemma push_window_all_eq_drop :
    ∀ (bs w : List Nat), 1 ≤ w.length →
      push_window_all w bs = (w ++ bs).drop bs.length
  | [], w, _ => by simp [push_window_all]
  | c :: bs, w, hw => by
    have h1 : 1 ≤ (push_window w c).length := by
      simp [push_window]
    have ih := push_window_all_eq_drop bs (push_window w c) h1
    simp only [push_window_all, List.foldl_cons] at ih ⊢
    rw [ih]
    have hsplit : (w ++ c :: bs).drop (c :: bs).length
        = ((w ++ c :: bs).drop 1).drop bs.length := by
      rw [List.drop_drop]
      rw [List.length_cons, Nat.add_comm]
    rw [hsplit, List.drop_append_of_le_length hw]
    simp [push_window, List.append_assoc]

/-- Pushing at most 8 bytes into the zero-initialised 8-byte window
leaves the pushed bytes preceded by the remaining zero padding. -/
lemma push_window_all_init (bs : List Nat) (h : bs.length ≤ 8) :
    push_window_all keyWindowInit bs = List.replicate (8 - bs.length) 0 ++ bs := by
  rw [push_window_all_eq_drop bs keyWindowInit (by simp [keyWindowInit])]
  rw [keyWindowInit, List.drop_append_of_le_length (by simpa using h)]
  rw [List.drop_replicate]

/-- Claim C1: after pushing a byte, `key_name` queries suffixes of the
8-byte window in increasing length from 1 up to 8 and returns the name of
the first (shortest) suffix the table matches; it reports no match only
when all 8 suffix lengths fail.  With a table holding both `{0x4F}` "O"
and `{0x1B, 0x4F}` "F1", feeding `0x1B` then `0x4F` reports "O"; with a
table holding only `{0x1B, 0x4F}` "F1", feeding `0x41`, `0x1B`, `0x4F`
reports "F1" exactly on the third byte. -/
theorem C1_sequence_matcher_shortest_suffix_first :
    (∀ (table : List Nat → Option String) (w : List Nat) (i : Nat) (n : String),
       i ≤ 7 →
       (∀ j ≤ 7, i < j → table (w.drop j) = none) →
       table (w.drop i) = some n →
       key_name_search table w key_name_idxs = some n)
    ∧ (∀ (table : List Nat → Option String) (w : List Nat),
        (∀ j ≤ 7, table (w.drop j) = none) →
        key_name_search table w key_name_idxs = none)
    ∧ (key_name table_O_F1 (push_window keyWindowInit 0x1B) 0x4F).2 = some "O"
    ∧ (key_name table_F1 keyWindowInit 0x41).2 = none
    ∧ (key_name table_F1 (push_window keyWindowInit 0x41) 0x1B).2 = none
    ∧ (key_name table_F1 (push_window_all keyWindowInit [0x41, 0x1B]) 0x4F).2
        = some "F1" := by
  refine ⟨?_, ?_, ?_, ?_, ?_, ?_⟩
  · intro table w i n hi hnone hsome
    have h7 := hnone 7
    have h6 := hnone 6
    have h5 := hnone 5
    have h4 := hnone 4
    have h3 := hnone 3
    have h2 := hnone 2
    have h1 := hnone 1
    clear hnone
    interval_cases i <;> simp_all [key_name_search, key_name_idxs]
  · intro table w h
    rw [key_name_search_none_iff]
    intro j hj
    refine h j ?_
    simp [key_name_idxs] at hj
    omega
  · decide
  · decide
  · decide
  · decide

/-- Witness for C1: the shortest-first search applied to the concrete
window left by feeding `0x41`, `0x1B`, `0x4F` finds "F1" at suffix
length 2 (index 6). -/
theorem C1_sequence_matcher_shortest_suffix_first_witness :
    key_name_search table_F1 [0, 0, 0, 0, 0, 0x41, 0x1B, 0x4F] key_name_idxs
      = some "F1" :=
  C1_sequence_matcher_shortest_suffix_first.1 table_F1
    [0, 0, 0, 0, 0, 0x41, 0x1B, 0x4F] 6 "F1" (by decide) (by decide) (by decide)

/-- Claim C2: pushing `e`,`x`,`i`,`t` (or `q`,`u`,`i`,`t`) in order with
no other bytes interleaved returns true on the 4th push and false on all
prior pushes, from any prior window state; the detector fires exactly
when the updated 4-byte window equals the literal phrase byte-for-byte
(case-sensitive, position-exact), so any intervening byte that shifts the
window breaks the match, as in the interrupted run `e`,`x`,`z`,`i`,`t`. -/
theorem C2_exit_phrase_detector :
    (∀ w : ExitRing, should_exit_run w [101, 120, 105, 116] = [false, false, false, true])
    ∧ (∀ w : ExitRing, should_exit_run w [113, 117, 105, 116] = [false, false, false, true])
    ∧ (∀ (w : ExitRing) (c : Nat),
        ((should_exit w c).2 = true ↔
          (ExitRing.mk w.c1 w.c2 w.c3 c = exitPhrase ∨
           ExitRing.mk w.c1 w.c2 w.c3 c = quitPhrase)))
    ∧ should_exit_run exitRingInit [101, 120, 122, 105, 116]
        = [false, false, false, false, false] := by
  refine ⟨?_, ?_, ?_, ?_⟩
  · rintro ⟨a, b, c, d⟩
    simp [should_exit_run, should_exit, exitPhrase, quitPhrase, ExitRing.mk.injEq]
  · rintro ⟨a, b, c, d⟩
    simp [should_exit_run, should_exit, exitPhrase, quitPhrase, ExitRing.mk.injEq]
  · intro w c
    simp [should_exit]
  · decide

/-- Witness for C2: the universally quantified `exit` run instantiated at
the zero-initialised window. -/
theorem C2_exit_phrase_detector_witness :
    should_exit_run exitRingInit [101, 120, 105, 116] = [false, false, false, true] :=
  C2_exit_phrase_detector.1 exitRingInit

/-- Claim C3: a blank-line separator is emitted iff the elapsed time is
at least 200,000 µs and the byte is not the session's first; an elapsed
time of at least 1,000,000 µs renders the field as blank padding, and a
smaller nonnegative elapsed time renders as milliseconds.microseconds;
concretely 50,000 µs gives no separator and the field `"( 50.000 ms)  "`,
250,000 µs gives a separator, and 2,000,000 µs gives blank padding. -/
theorem C3_timing_tracker_display :
    (∀ (e : Int) (first : Bool),
       elapsed_separator e first = true ↔ (200000 ≤ e ∧ first = true))
    ∧ (∀ e : Int, 1000000 ≤ e → elapsed_field e = "              ")
    ∧ (∀ e : Int, 0 ≤ e → e < 1000000 →
        elapsed_field e
          = "(" ++ fmt_sp3 (e / 1000) ++ "." ++ fmt_z3 (e % 1000) ++ " ms)  ")
    ∧ (∀ first : Bool, elapsed_separator 50000 first = false)
    ∧ elapsed_field 50000 = "( 50.000 ms)  "
    ∧ elapsed_separator 250000 true = true
    ∧ elapsed_field 2000000 = "              " := by
  refine ⟨?_, ?_, ?_, ?_, ?_, ?_, ?_⟩
  · intro e first
    simp [elapsed_separator]
  · intro e he
    simp [elapsed_field, he]
  · intro e he0 he1
    obtain ⟨n, rfl⟩ := Int.eq_ofNat_of_zero_le he0
    rw [elapsed_field, if_neg (by omega)]
    rfl
  · intro first
    cases first <;> decide
  · decide
  · decide
  · decide

/-- Witness for C3: the numeric-rendering conjunct applied at the largest
sub-second elapsed value, 999,999 µs. -/
theorem C3_timing_tracker_display_witness :
    elapsed_field 999999 = "(999.999 ms)  " := by
  have h := C3_timing_tracker_display.2.2.1 999999 (by decide) (by decide)
  simpa using h

/-- Counterexample for C4: at byte value 0 the code renders the symbolic
description as `\c@` (backslash-c escape), not as the literal caret
character `^` followed by `chr(0 + 64)` that the claim states. -/
theorem C4_caret_counterexample :
    char_field 0 ≠ String.mk ['^', Char.ofNat (0 + 64)] ∧ char_field 0 = "\\c@" := by
  constructor <;> decide

/-- Claim C4 as amended: for every byte value less than 32 the symbolic
description is rendered as the two-character escape `\c` followed by
`chr(value + 64)` (fish's backslash-c form of caret notation, not a
literal `^` character). -/
theorem C4_control_byte_backslash_c_escape :
    ∀ c, c < 32 → (char_field c).take 3 = String.mk ['\\', 'c', Char.ofNat (c + 64)] := by
  decide

/-- Witness for C4: the amended rendering rule evaluated at byte 0. -/
theorem C4_control_byte_backslash_c_escape_witness :
    (char_field 0).take 3 = String.mk ['\\', 'c', Char.ofNat (0 + 64)] :=
  C4_control_byte_backslash_c_escape 0 (by decide)

/-- Counterexample for C5: the control codes below 32 that carry a named
alias are exactly the eight codes 7..13 and 27, so the claimed "fixed set
of 9 codes" has the wrong cardinality: the set has 8 elements, not 9. -/
theorem C5_alias_count_counterexample :
    ((List.range 32).filter (fun c => (ctrl_symbolic_names.getD c none).isSome))
      = [7, 8, 9, 10, 11, 12, 13, 27]
    ∧ ¬ ((List.range 32).filter
          (fun c => (ctrl_symbolic_names.getD c none).isSome)).length = 9 := by
  constructor <;> decide

/-- Claim C5 as amended: for a control byte (value < 32) a named alias is
appended iff the value is one of the fixed set of 8 codes
BEL=7, BS=8, TAB=9, LF=10, VT=11, FF=12, CR=13, ESC=27, with the aliases
`\a`,`\b`,`\t`,`\n`,`\v`,`\f`,`\r`,`\e`; code 14 carries no alias even
though it is below 32. -/
theorem C5_control_alias_codes :
    (∀ c, c < 32 →
      ((ctrl_symbolic_names.getD c none).isSome
        ↔ c ∈ ([7, 8, 9, 10, 11, 12, 13, 27] : List Nat)))
    ∧ (∀ c, c < 32 →
      (char_field c ≠ String.mk ['\\', 'c', Char.ofNat (c + 64)]
        ↔ c ∈ ([7, 8, 9, 10, 11, 12, 13, 27] : List Nat)))
    ∧ ctrl_symbolic_names.getD 7 none = some "\\a"
    ∧ ctrl_symbolic_names.getD 8 none = some "\\b"
    ∧ ctrl_symbolic_names.getD 9 none = some "\\t"
    ∧ ctrl_symbolic_names.getD 10 none = some "\\n"
    ∧ ctrl_symbolic_names.getD 11 none = some "\\v"
    ∧ ctrl_symbolic_names.getD 12 none = some "\\f"
    ∧ ctrl_symbolic_names.getD 13 none = some "\\r"
    ∧ ctrl_symbolic_names.getD 27 none = some "\\e"
    ∧ ctrl_symbolic_names.getD 14 none = none := by
  refine ⟨by decide, by decide, ?_, ?_, ?_, ?_, ?_, ?_, ?_, ?_, ?_⟩ <;> decide

/-- Witness for C5: the alias-membership rule evaluated at code 14, which
is below 32 but carries no alias. -/
theorem C5_control_alias_codes_witness :
    (ctrl_symbolic_names.getD 14 none).isSome
      ↔ (14 : Nat) ∈ ([7, 8, 9, 10, 11, 12, 13, 27] : List Nat) :=
  C5_control_alias_codes.1 14 (by decide)

/-- Claim C6: when the session loop receives an input unit whose value
exceeds 255 it emits only the unexpected-input report carrying the value
and terminates, regardless of the session state, without producing any
per-byte report (so none of the per-byte components runs on that unit)
and without consuming the rest of the input. -/
theorem C6_oversized_unit_terminates :
    ∀ (table : List Nat → Option String) (s : SessionState) (v : Nat) (now : Int)
      (rest : List InputUnit),
      s.keep_running = true → 255 < v →
      process_input_loop table s (InputUnit.unit v now :: rest)
        = ([Report.unexpectedWide v], EndStatus.wideCharError v) := by
  intro table s v now rest hk hv
  simp [process_input_loop, hk, hv]

/-- Witness for C6: a unit of value 300 delivered to the initial session
state terminates with the unexpected-input report. -/
theorem C6_oversized_unit_terminates_witness :
    process_input_loop (fun _ => none) session_init [InputUnit.unit 300 0]
      = ([Report.unexpectedWide 300], EndStatus.wideCharError 300) :=
  C6_oversized_unit_terminates (fun _ => none) session_init 300 0 [] rfl (by decide)

/-- Claim C7: the signal handler clears the keep-running flag iff the
delivered signal is SIGINT, SIGTERM, SIGABRT or SIGSEGV; for every other
signal it leaves the flag unchanged, and in every case it prints the
receipt notice. -/
theorem C7_signal_handler_flag :
    (∀ (signo : Nat) (kr : Bool),
       (signo = SIGINT ∨ signo = SIGTERM ∨ signo = SIGABRT ∨ signo = SIGSEGV) →
       (signal_handler signo kr).2 = false)
    ∧ (∀ (signo : Nat) (kr : Bool),
        ¬ (signo = SIGINT ∨ signo = SIGTERM ∨ signo = SIGABRT ∨ signo = SIGSEGV) →
        (signal_handler signo kr).2 = kr)
    ∧ (∀ (signo : Nat) (kr : Bool), (signal_handler signo kr).1 = true) := by
  refine ⟨?_, ?_, ?_⟩
  · intro signo kr h
    simp [signal_handler, h]
  · intro signo kr h
    simp [signal_handler, h]
  · intro signo kr
    simp [signal_handler]

/-- Witness for C7: SIGINT (2) clears the flag; SIGHUP (1) leaves it. -/
theorem C7_signal_handler_flag_witness :
    (signal_handler 2 true).2 = false ∧ (signal_handler 1 true).2 = true :=
  ⟨C7_signal_handler_flag.1 2 true (Or.inl rfl),
   C7_signal_handler_flag.2.1 1 true (by decide)⟩

/-- Claim C8: feeding the 9 bytes of "hello" followed by "exit" produces
exactly 9 per-byte reports followed by the termination notice and the
exit-requested status; feeding a single end-of-stream marker with no
prior bytes produces zero reports and clean termination. -/
theorem C8_end_to_end_session :
    ((process_input (fun _ => none) hello_exit_input).1.countP Report.isByteReport = 9)
    ∧ (process_input (fun _ => none) hello_exit_input).1.length = 10
    ∧ (process_input (fun _ => none) hello_exit_input).1.getLast? = some Report.exitNotice
    ∧ (process_input (fun _ => none) hello_exit_input).2 = EndStatus.exitRequested
    ∧ process_input (fun _ => none) [InputUnit.eof] = ([], EndStatus.eofEnd) := by
  refine ⟨?_, ?_, ?_, ?_, ?_⟩ <;> decide

/-- Claim C9: the stored previous timestamp starts at the epoch sentinel
0, so whenever the clock at the session's first byte reads at least one
second (1,000,000 µs) past the epoch, that byte's report has no blank-line
separator and a blank-padding elapsed field, never a numeric value. -/
theorem C9_first_byte_blank_elapsed :
    ∀ (table : List Nat → Option String) (v : Nat) (now : Int) (rest : List InputUnit),
      v ≤ 255 → 1000000 ≤ now →
      (process_input table (InputUnit.unit v now :: rest)).1.head?
        = some (Report.byteReport false "              " (char_field v)
            (key_name_search table (push_window keyWindowInit v) key_name_idxs)) := by
  intro table v now rest hv hnow
  have hv' : ¬ (255 < v) := by omega
  have hd : (1000000 : Int) ≤ now - 0 := by omega
  have hsep : elapsed_separator (now - 0) false = false := by
    simp [elapsed_separator]
  have hfield : elapsed_field (now - 0) = "              " := by
    rw [elapsed_field, if_pos hd]
  simp only [process_input, process_input_loop, session_init, if_pos, if_neg hv',
    key_name, hsep, hfield]
  split <;> simp

/-- Witness for C9: byte 104 arriving exactly one second past the epoch
as the session's first byte. -/
theorem C9_first_byte_blank_elapsed_witness :
    (process_input (fun _ => none) [InputUnit.unit 104 1000000]).1.head?
      = some (Report.byteReport false "              " (char_field 104)
          (key_name_search (fun _ => none) (push_window keyWindowInit 104) key_name_idxs)) :=
  C9_first_byte_blank_elapsed (fun _ => none) 104 1000000 [] (by decide) (by decide)

/-- Claim C10: the 8-byte window starts as zero bytes, so after pushing
fewer than 8 bytes it is the pushed bytes preceded by zero padding, and
any queried suffix longer than the bytes seen has leading NUL bytes; the
no-match result arises exactly when all 8 suffix lengths fail, and a
table entry containing NUL bytes (here `{0x00, 0x41}` named "X") can
match positions never filled by actual input. -/
theorem C10_window_nul_padding :
    (∀ bs : List Nat, bs.length ≤ 8 →
       push_window_all keyWindowInit bs = List.replicate (8 - bs.length) 0 ++ bs)
    ∧ (∀ (bs : List Nat) (L : Nat), bs.length ≤ L → L ≤ 8 →
        (push_window_all keyWindowInit bs).drop (8 - L)
          = List.replicate (L - bs.length) 0 ++ bs)
    ∧ (∀ (table : List Nat → Option String) (w : List Nat),
        (key_name_search table w key_name_idxs = none ↔ ∀ j ≤ 7, table (w.drop j) = none))
    ∧ (key_name table_nul keyWindowInit 0x41).2 = some "X" := by
  refine ⟨?_, ?_, ?_, ?_⟩
  · intro bs h
    exact push_window_all_init bs h
  · intro bs L hbs hL
    rw [push_window_all_init bs (by omega)]
    rw [List.drop_append_of_le_length (by simp; omega)]
    rw [List.drop_replicate]
    congr 1
    congr 1
    omega
  · intro table w
    rw [key_name_search_none_iff]
    constructor
    · intro h j hj
      refine h j ?_
      simp [key_name_idxs]
      omega
    · intro h j hj
      refine h j ?_
      simp [key_name_idxs] at hj
      omega
  · decide

/-- Witness for C10: pushing the single byte `0x41` leaves seven leading
zero bytes in the window. -/
theorem C10_window_nul_padding_witness :
    push_window_all keyWindowInit [0x41] = List.replicate 7 0 ++ [0x41] :=
  C10_window_nul_padding.1 [0x41] (by decide)

end FishKeyReader
